import Mathlib

/-
Shallow embedding of `src/workout_creator.py` (txt2fit): the workout text
parser (`WorkoutParser`) and the FIT step encoder (`FitWorkoutBuilder`).

Lines of text are embedded as `List Char`.  The regular expressions of the
source are embedded as deterministic character-level matchers; each matcher
documents the pattern it implements.  Python floats that only ever hold exact
decimal values (durations, power percents, heart rates) are embedded as `ℚ`.
-/

/- The Batteries rational operations are `@[irreducible]`; the concrete
evaluations below go through them, so restore default reducibility here. -/
attribute [local semireducible] Rat.ofScientific Rat.mul Rat.inv Rat.add Rat.sub

/-- Characters of one line of workout text. -/
abbrev Chars := List Char

/-- Python regex `\s` on ASCII text. -/
def pyIsSpace (c : Char) : Bool :=
  c = ' ' || c = '\t' || c = '\n' || c = '\r' || c = '\x0b' || c = '\x0c'

/-- The dash alternatives `[-–—]` used by the patterns. -/
def isDash (c : Char) : Bool :=
  c = '-' || c = '–' || c = '—'

/-- Python `str.lower()` (ASCII letters; the patterns are ASCII). -/
def lowerStr (l : Chars) : Chars := l.map Char.toLower

/-- Python substring test `pat in l`. -/
def containsSub (l pat : Chars) : Bool :=
  match l with
  | [] => pat.isEmpty
  | c :: t => pat.isPrefixOf (c :: t) || containsSub t pat

/-- Embeds `\s*` : drop leading whitespace. -/
def skipSpaces (l : Chars) : Chars := l.dropWhile pyIsSpace

/-- Embeds `\s+` : at least one whitespace character, consumed greedily. -/
def matchSpaces1 : Chars → Option Chars
  | [] => none
  | c :: r => if pyIsSpace c then some (r.dropWhile pyIsSpace) else none

/-- Embeds `[-–—]+` : at least one dash, consumed greedily. -/
def matchDashes1 : Chars → Option Chars
  | [] => none
  | c :: r => if isDash c then some (r.dropWhile isDash) else none

/-- A single literal character, case-insensitively (`c` given lower-case). -/
def matchChar (c : Char) : Chars → Option Chars
  | [] => none
  | x :: r => if x.toLower = c then some r else none

/-- A literal string, case-insensitively (`lit` given lower-case). -/
def matchLit : Chars → Chars → Option Chars
  | [], l => some l
  | _ :: _, [] => none
  | c :: cs, x :: r => if x.toLower = c then matchLit cs r else none

/-- Greedy `\d+` span. -/
def spanDigits (l : Chars) : Chars × Chars :=
  (l.takeWhile Char.isDigit, l.dropWhile Char.isDigit)

def digitsToNat (ds : Chars) : ℕ :=
  ds.foldl (fun a c => 10 * a + (c.toNat - 48)) 0

/-- Embeds `\d+(?:\.\d+)?` : a numeric token, its value as an exact rational. -/
def matchNumber (l : Chars) : Option (ℚ × Chars) :=
  let p := spanDigits l
  if p.1.isEmpty then none else
  let ip : ℚ := (digitsToNat p.1 : ℕ)
  match p.2 with
  | '.' :: r2 =>
    let q := spanDigits r2
    if q.1.isEmpty then some (ip, p.2)
    else some (ip + (digitsToNat q.1 : ℚ) / (10 : ℚ) ^ q.1.length, q.2)
  | _ => some (ip, p.2)

/-- Embeds `(\d+)` : an integer-valued group. -/
def matchNat (l : Chars) : Option (ℕ × Chars) :=
  let p := spanDigits l
  if p.1.isEmpty then none else some (digitsToNat p.1, p.2)

/-- Embeds `re.search`: try the matcher at each start position, left to right, so the
leftmost match wins (the matchers themselves are deterministic, matching the
behaviour of the source's patterns, whose consecutive pieces consume disjoint
character classes). -/
def search {α : Type} (m : Chars → Option (α × Chars)) : Chars → Option α
  | [] => (m []).map Prod.fst
  | c :: r =>
    match m (c :: r) with
    | some p => some p.1
    | none => search m r

/-- Embeds `(?:of\s+)?ftp` (tail of the power patterns). -/
def matchOfFtp (l : Chars) : Option Chars :=
  (do
    let r1 ← matchLit ("of".data) l
    let r2 ← matchSpaces1 r1
    matchLit ("ftp".data) r2) <|> matchLit ("ftp".data) l

/-- One alternative of the unit group: the literal itself is the capture
(the source lower-cases the capture before comparing, so the capture is
returned lower-cased). -/
def matchAlt (lit : Chars) (l : Chars) : Option (Chars × Chars) :=
  (matchLit lit l).map (fun r => (lit, r))

/-- An alternative of the shape `lit` + optional trailing `s` (`seconds?`). -/
def matchOptS (lit : Chars) (l : Chars) : Option (Chars × Chars) :=
  match matchLit lit l with
  | none => none
  | some r =>
    match r with
    | c :: r2 => if c.toLower = 's' then some (lit ++ ['s'], r2) else some (lit, r)
    | [] => some (lit, [])

/-- Embeds `(s|sec|seconds?|m|min|minutes?|h|hr|hours?)` with regex ordered
alternation: the first alternative that matches wins (nothing follows the
group in `DURATION_PATTERN`, so no backtracking can occur). -/
def matchUnit (l : Chars) : Option (Chars × Chars) :=
  matchAlt ("s".data) l <|> matchAlt ("sec".data) l <|> matchOptS ("second".data) l <|>
  matchAlt ("m".data) l <|> matchAlt ("min".data) l <|> matchOptS ("minute".data) l <|>
  matchAlt ("h".data) l <|> matchAlt ("hr".data) l <|> matchOptS ("hour".data) l

/-- Embeds `DURATION_PATTERN` at one position:
`(\d+(?:\.\d+)?)\s*(s|sec|seconds?|m|min|minutes?|h|hr|hours?)`. -/
def matchDurationAt (l : Chars) : Option ((ℚ × Chars) × Chars) := do
  let (v, r1) ← matchNumber l
  let (u, r2) ← matchUnit (skipSpaces r1)
  pure ((v, u), r2)

def searchDuration (l : Chars) : Option (ℚ × Chars) := search matchDurationAt l

def secUnits : List Chars := [("s".data), ("sec".data), ("second".data), ("seconds".data)]
def minUnits : List Chars := [("m".data), ("min".data), ("minute".data), ("minutes".data)]
def hourUnits : List Chars := [("h".data), ("hr".data), ("hour".data), ("hours".data)]

/-- Embeds `WorkoutParser._parse_duration`: first duration match on the line, then
seconds by unit class (the capture is already lower-cased). -/
def parseDuration (l : Chars) : Option ℚ :=
  match searchDuration l with
  | none => none
  | some (v, u) =>
    if u ∈ secUnits then some v
    else if u ∈ minUnits then some (v * 60)
    else if u ∈ hourUnits then some (v * 3600)
    else none

/-- Shared tail `[-–—]+\s*(\d+(?:\.\d+)?)\s*%\s*(?:of\s+)?ftp` of the two-bound
power patterns, with the first bound `v1` already captured. -/
def matchPowerTail (v1 : ℚ) (l : Chars) : Option ((ℚ × ℚ) × Chars) := do
  let r1 ← matchDashes1 l
  let (v2, r2) ← matchNumber (skipSpaces r1)
  let r3 ← matchChar '%' (skipSpaces r2)
  let r4 ← matchOfFtp (skipSpaces r3)
  pure ((v1, v2), r4)

/-- Embeds `POWER_RAMP_PATTERN` at one position:
`(\d+(?:\.\d+)?)\s*%?\s*[-–—]+\s*(\d+(?:\.\d+)?)\s*%\s*(?:of\s+)?ftp`
(note the optional `%` after the first bound). -/
def matchRampAt (l : Chars) : Option ((ℚ × ℚ) × Chars) := do
  let (v1, r1) ← matchNumber l
  match matchChar '%' (skipSpaces r1) with
  | some r2 => matchPowerTail v1 (skipSpaces r2)
  | none => matchPowerTail v1 (skipSpaces (skipSpaces r1))

/-- Embeds `POWER_RANGE_PATTERN` at one position:
`(\d+(?:\.\d+)?)\s*[-–—]+\s*(\d+(?:\.\d+)?)\s*%\s*(?:of\s+)?ftp`. -/
def matchRangeAt (l : Chars) : Option ((ℚ × ℚ) × Chars) := do
  let (v1, r1) ← matchNumber l
  matchPowerTail v1 (skipSpaces r1)

/-- Embeds `POWER_STEADY_PATTERN` at one position: `(\d+(?:\.\d+)?)\s*%\s*(?:of\s+)?ftp`. -/
def matchSteadyAt (l : Chars) : Option (ℚ × Chars) := do
  let (v, r1) ← matchNumber l
  let r2 ← matchChar '%' (skipSpaces r1)
  let r3 ← matchOfFtp (skipSpaces r2)
  pure (v, r3)

def matchRpmTail (l : Chars) : Option Chars := matchLit ("rpm".data) (skipSpaces l)

/-- Embeds `CADENCE_PATTERN` at one position: `@\s*(\d+)(?:\s*[-–—]+\s*(\d+))?\s*rpm`. -/
def matchCadenceAt (l : Chars) : Option ((ℕ × Option ℕ) × Chars) := do
  let r1 ← matchChar '@' l
  let (c1, r2) ← matchNat (skipSpaces r1)
  match (do
      let g1 ← matchDashes1 (skipSpaces r2)
      let (c2, g2) ← matchNat (skipSpaces g1)
      let g3 ← matchRpmTail g2
      pure ((c1, some c2), g3) : Option ((ℕ × Option ℕ) × Chars)) with
  | some res => some res
  | none => do
    let r3 ← matchRpmTail r2
    pure ((c1, none), r3)

def matchBpmTail (l : Chars) : Option Chars := matchLit ("bpm".data) (skipSpaces l)

/-- Embeds `HR_ABSOLUTE_PATTERN` at one position: `(\d+)(?:\s*[-–—]+\s*(\d+))?\s*bpm`. -/
def matchHrAbsAt (l : Chars) : Option ((ℕ × Option ℕ) × Chars) := do
  let (h1, r1) ← matchNat l
  match (do
      let g1 ← matchDashes1 (skipSpaces r1)
      let (h2, g2) ← matchNat (skipSpaces g1)
      let g3 ← matchBpmTail g2
      pure ((h1, some h2), g3) : Option ((ℕ × Option ℕ) × Chars)) with
  | some res => some res
  | none => do
    let r2 ← matchBpmTail r1
    pure ((h1, none), r2)

/-- Embeds `(?:max\s*)?hr` tail. -/
def matchMaxHr (l : Chars) : Option Chars :=
  (do
    let r1 ← matchLit ("max".data) l
    matchLit ("hr".data) (skipSpaces r1)) <|> matchLit ("hr".data) l

def matchHrPctTail (l : Chars) : Option Chars := do
  let r1 ← matchChar '%' (skipSpaces l)
  matchMaxHr (skipSpaces r1)

/-- Embeds `HR_PERCENTAGE_PATTERN` at one position:
`(\d+)(?:\s*[-–—]+\s*(\d+))?\s*%\s*(?:max\s*)?hr`. -/
def matchHrPctAt (l : Chars) : Option ((ℕ × Option ℕ) × Chars) := do
  let (h1, r1) ← matchNat l
  match (do
      let g1 ← matchDashes1 (skipSpaces r1)
      let (h2, g2) ← matchNat (skipSpaces g1)
      let g3 ← matchHrPctTail g2
      pure ((h1, some h2), g3) : Option ((ℕ × Option ℕ) × Chars)) with
  | some res => some res
  | none => do
    let r2 ← matchHrPctTail r1
    pure ((h1, none), r2)

/-- Embeds `NOTES_PATTERN` search, `"([^"]+)"`: the first quoted run, as
(text before the match, captured content, text after the match). -/
def extractNotes : Chars → Option (Chars × Chars × Chars)
  | [] => none
  | '"' :: r =>
    match r.takeWhile (fun c => c ≠ '"'), r.dropWhile (fun c => c ≠ '"') with
    | c0 :: cs, '"' :: r3 => some ([], c0 :: cs, r3)
    | _, _ =>
      match extractNotes r with
      | some (b, n, a) => some ('"' :: b, n, a)
      | none => none
  | c :: r =>
    match extractNotes r with
    | some (b, n, a) => some (c :: b, n, a)
    | none => none

/-- Python `str.strip()`. -/
def stripBoth (l : Chars) : Chars :=
  ((l.dropWhile pyIsSpace).reverse.dropWhile pyIsSpace).reverse

/-- Notes removal in `_parse_line`:
`line = line[:notes_match.start()] + line[notes_match.end():]`. -/
def stripNotesFromLine (l : Chars) : Chars × Chars :=
  match extractNotes l with
  | some (b, n, a) => (b ++ a, n)
  | none => (l, [])

/-- Embeds `REPEAT_PATTERN.match`, anchored `^(\d+)\s*x\s+`; on success the code keeps
`line[match.end():].strip()` and the captured count, else count 1. -/
def stripRepeat (l : Chars) : ℕ × Chars :=
  match (do
    let (n, r1) ← matchNat l
    let r2 ← matchChar 'x' (skipSpaces r1)
    let r3 ← matchSpaces1 r2
    pure (n, r3) : Option (ℕ × Chars)) with
  | some (n, r) => (n, stripBoth r)
  | none => (1, l)

/-- Embeds `StepType` enum of the source. -/
inductive StepType
  | STEADY | RAMP | RANGE | OPEN | WARMUP | COOLDOWN | RECOVERY | REPEAT
deriving DecidableEq

/-- Embeds `TargetType` enum of the source. -/
inductive TargetType
  | POWER | HEART_RATE | CADENCE | OPEN
deriving DecidableEq

/-- Embeds `fit_tool` `Intensity` values used by the source. -/
inductive Intensity
  | ACTIVE | WARMUP | COOLDOWN | RECOVERY | INTERVAL
deriving DecidableEq

/-- The non-recursive fields of the `WorkoutStep` dataclass, with the
dataclass's defaults. -/
structure StepData where
  step_type : StepType
  duration_seconds : ℚ
  target_type : TargetType := TargetType.POWER
  power_low_pct : ℚ := 0
  power_high_pct : ℚ := 0
  hr_target_type : Option TargetType := none
  hr_low : ℚ := 0
  hr_high : ℚ := 0
  hr_is_percentage : Bool := false
  cadence_low : Option ℕ := none
  cadence_high : Option ℕ := none
  name : Chars := []
  notes : Chars := []
  intensity : Option Intensity := none
  repeat_count : ℕ := 1
deriving DecidableEq

/-- Embeds `WorkoutStep`: the dataclass together with its recursive `repeat_steps`
list (a Lean structure cannot be recursive, hence a one-constructor
inductive plus projections). -/
inductive WorkoutStep
  | mk (data : StepData) (repeat_steps : List WorkoutStep)

def WorkoutStep.data : WorkoutStep → StepData
  | .mk d _ => d

def WorkoutStep.repeat_steps : WorkoutStep → List WorkoutStep
  | .mk _ rs => rs

def WorkoutStep.step_type (s : WorkoutStep) : StepType := s.data.step_type

def WorkoutStep.duration_seconds (s : WorkoutStep) : ℚ := s.data.duration_seconds

/-- Embeds `WorkoutStep.__post_init__`. -/
def applyPostInit (d : StepData) : StepData :=
  let d1 := if d.step_type = StepType.STEADY ∧ d.power_high_pct = 0 then
      { d with power_high_pct := d.power_low_pct } else d
  if d1.cadence_low.isSome ∧ d1.cadence_high = none then
      { d1 with cadence_high := d1.cadence_low } else d1

/-- Constructing a `WorkoutStep` runs `__post_init__`. -/
def mkStep (d : StepData) (rs : List WorkoutStep) : WorkoutStep :=
  WorkoutStep.mk (applyPostInit d) rs

def natChars (n : ℕ) : Chars := Nat.toDigits 10 n

/-- Floor of a rational (the denominator is positive). -/
def floorQ (q : ℚ) : ℤ := q.num.fdiv q.den

/-- Value printed by Python `"%.0f"` formatting: round half to even (the
formatted values are exact decimals in this program). -/
def roundHalfEven (q : ℚ) : ℤ :=
  let f := floorQ q
  let r := q - (f : ℚ)
  if r < 1/2 then f else if 1/2 < r then f + 1 else if f % 2 = 0 then f else f + 1

def intChars (z : ℤ) : Chars :=
  if z < 0 then '-' :: natChars z.natAbs else natChars z.natAbs

/-- Embeds `f"{x:.0f}"`. -/
def fmt0 (q : ℚ) : Chars := intChars (roundHalfEven q)

/-- Embeds `WorkoutParser.SPECIAL_KEYWORDS`, in source (insertion) order. -/
def SPECIAL_KEYWORDS : List (Chars × StepType) :=
  [(("warmup".data), StepType.WARMUP), (("warm-up".data), StepType.WARMUP),
   (("warm up".data), StepType.WARMUP), (("cooldown".data), StepType.COOLDOWN),
   (("cool-down".data), StepType.COOLDOWN), (("cool down".data), StepType.COOLDOWN),
   (("recovery".data), StepType.RECOVERY), (("rest".data), StepType.RECOVERY),
   (("open".data), StepType.OPEN), (("free".data), StepType.OPEN),
   (("free ride".data), StepType.OPEN), (("freeride".data), StepType.OPEN)]

/-- Embeds `WorkoutParser.INTENSITY_KEYWORDS`, in source (insertion) order. -/
def INTENSITY_KEYWORDS : List (Chars × Intensity) :=
  [(("warmup".data), Intensity.WARMUP), (("warm-up".data), Intensity.WARMUP),
   (("cooldown".data), Intensity.COOLDOWN), (("cool-down".data), Intensity.COOLDOWN),
   (("recovery".data), Intensity.RECOVERY), (("rest".data), Intensity.RECOVERY),
   (("easy".data), Intensity.RECOVERY), (("endurance".data), Intensity.ACTIVE),
   (("tempo".data), Intensity.ACTIVE), (("threshold".data), Intensity.ACTIVE),
   (("sweetspot".data), Intensity.ACTIVE), (("sweet spot".data), Intensity.ACTIVE),
   (("vo2".data), Intensity.INTERVAL), (("vo2max".data), Intensity.INTERVAL),
   (("interval".data), Intensity.INTERVAL), (("sprint".data), Intensity.INTERVAL),
   (("anaerobic".data), Intensity.INTERVAL)]

/-- First keyword of the table occurring as a substring of the (lower-cased)
line wins, as in the source's ordered-dict scan. -/
def findKeyword {α : Type} : List (Chars × α) → Chars → Option α
  | [], _ => none
  | kv :: rest, l => if containsSub l kv.1 then some kv.2 else findKeyword rest l

/-- Embeds `WorkoutParser._create_special_step` (raises on other step types, embedded
as `none`; only the four listed types can reach it). -/
def createSpecialStep (st : StepType) (duration : ℚ) (notes : Chars) : Option WorkoutStep :=
  match st with
  | StepType.WARMUP => some (mkStep
      { step_type := StepType.RAMP, duration_seconds := duration,
        target_type := TargetType.POWER, power_low_pct := 40, power_high_pct := 75,
        name := ("Warmup".data),
        notes := if notes.isEmpty then ("Easy spin, gradually increase effort".data) else notes,
        intensity := some Intensity.WARMUP } [])
  | StepType.COOLDOWN => some (mkStep
      { step_type := StepType.RAMP, duration_seconds := duration,
        target_type := TargetType.POWER, power_low_pct := 65, power_high_pct := 40,
        name := ("Cooldown".data),
        notes := if notes.isEmpty then ("Easy spin, relax".data) else notes,
        intensity := some Intensity.COOLDOWN } [])
  | StepType.RECOVERY => some (mkStep
      { step_type := StepType.STEADY, duration_seconds := duration,
        target_type := TargetType.POWER, power_low_pct := 50, power_high_pct := 50,
        name := ("Recovery".data),
        notes := if notes.isEmpty then ("Easy spinning, recover".data) else notes,
        intensity := some Intensity.RECOVERY } [])
  | StepType.OPEN => some (mkStep
      { step_type := StepType.OPEN, duration_seconds := duration,
        target_type := TargetType.OPEN,
        name := ("Free Ride".data),
        notes := if notes.isEmpty then ("Ride at your own pace".data) else notes,
        intensity := some Intensity.ACTIVE } [])
  | _ => none

def searchCadence (l : Chars) : Option (ℕ × Option ℕ) := search matchCadenceAt l
def searchHrPct (l : Chars) : Option (ℕ × Option ℕ) := search matchHrPctAt l
def searchHrAbs (l : Chars) : Option (ℕ × Option ℕ) := search matchHrAbsAt l
def searchRamp (l : Chars) : Option (ℚ × ℚ) := search matchRampAt l
def searchRange (l : Chars) : Option (ℚ × ℚ) := search matchRangeAt l
def searchSteady (l : Chars) : Option ℚ := search matchSteadyAt l

/-- The heart-rate fields collected by `_parse_line` (percentage pattern
checked first, absolute second). -/
structure HrInfo where
  hr_target_type : Option TargetType
  hr_low : ℚ
  hr_high : ℚ
  hr_is_percentage : Bool
deriving DecidableEq

def parseHr (l : Chars) : HrInfo :=
  match searchHrPct l with
  | some (a, b) => ⟨some TargetType.HEART_RATE, (a : ℚ), ((b.getD a : ℕ) : ℚ), true⟩
  | none =>
    match searchHrAbs l with
    | some (a, b) => ⟨some TargetType.HEART_RATE, (a : ℚ), ((b.getD a : ℕ) : ℚ), false⟩
    | none => ⟨none, 0, 0, false⟩

/-- The cadence fields collected by `_parse_line`. -/
def parseCadence (l : Chars) : Option ℕ × Option ℕ :=
  match searchCadence l with
  | some (c1, c2) => (some c1, some (c2.getD c1))
  | none => (none, none)

/-- Name of an HR-only step. -/
def hrName (hr : HrInfo) : Chars :=
  if hr.hr_is_percentage then
    if hr.hr_low ≠ hr.hr_high then
      fmt0 hr.hr_low ++ ("%-".data) ++ fmt0 hr.hr_high ++ ("% HR".data)
    else fmt0 hr.hr_low ++ ("% HR".data)
  else
    if hr.hr_low ≠ hr.hr_high then
      fmt0 hr.hr_low ++ ("-".data) ++ fmt0 hr.hr_high ++ (" bpm".data)
    else fmt0 hr.hr_low ++ (" bpm".data)

/-- The target-selection part of `_parse_line` (lines 354-434): ramp pattern
first, then range, then steady, then an HR-only step, else no target. -/
def buildTarget (l2 : Chars) (duration : ℚ) (notes : Chars) : Option WorkoutStep :=
  match searchRamp l2 with
  | some (lo, hi) => some (mkStep
      { step_type := StepType.RAMP, duration_seconds := duration,
        target_type := TargetType.POWER, power_low_pct := lo, power_high_pct := hi,
        name := ("Ramp ".data) ++ fmt0 lo ++ ("%-".data) ++ fmt0 hi ++ ("%".data),
        notes := notes,
        cadence_low := (parseCadence l2).1, cadence_high := (parseCadence l2).2,
        hr_target_type := (parseHr l2).hr_target_type, hr_low := (parseHr l2).hr_low,
        hr_high := (parseHr l2).hr_high, hr_is_percentage := (parseHr l2).hr_is_percentage } [])
  | none =>
  match searchRange l2 with
  | some (lo, hi) => some (mkStep
      { step_type := StepType.RANGE, duration_seconds := duration,
        target_type := TargetType.POWER, power_low_pct := lo, power_high_pct := hi,
        name := fmt0 lo ++ ("-".data) ++ fmt0 hi ++ ("% FTP".data),
        notes := notes,
        cadence_low := (parseCadence l2).1, cadence_high := (parseCadence l2).2,
        hr_target_type := (parseHr l2).hr_target_type, hr_low := (parseHr l2).hr_low,
        hr_high := (parseHr l2).hr_high, hr_is_percentage := (parseHr l2).hr_is_percentage } [])
  | none =>
  match searchSteady l2 with
  | some p => some (mkStep
      { step_type := StepType.STEADY, duration_seconds := duration,
        target_type := TargetType.POWER, power_low_pct := p, power_high_pct := p,
        name := fmt0 p ++ ("% FTP".data),
        notes := notes,
        cadence_low := (parseCadence l2).1, cadence_high := (parseCadence l2).2,
        hr_target_type := (parseHr l2).hr_target_type, hr_low := (parseHr l2).hr_low,
        hr_high := (parseHr l2).hr_high, hr_is_percentage := (parseHr l2).hr_is_percentage } [])
  | none =>
  match (parseHr l2).hr_target_type with
  | some _ => some (mkStep
      { step_type := StepType.STEADY, duration_seconds := duration,
        target_type := TargetType.HEART_RATE,
        hr_target_type := (parseHr l2).hr_target_type, hr_low := (parseHr l2).hr_low,
        hr_high := (parseHr l2).hr_high, hr_is_percentage := (parseHr l2).hr_is_percentage,
        name := hrName (parseHr l2),
        notes := notes,
        cadence_low := (parseCadence l2).1, cadence_high := (parseCadence l2).2 } [])
  | none => none

/-- Structured parse failures of `_parse_line` (the source raises
`WorkoutParseError` carrying the line text). -/
inductive ParseFailure
  | noDuration | noTarget | badSpecial
deriving DecidableEq

/-- Embeds `if manual_intensity: step.intensity = manual_intensity` (an `Intensity`
enum member is truthy, `None` falsy). -/
def setManualIntensity (manual : Option Intensity) (s : WorkoutStep) : WorkoutStep :=
  match manual with
  | some i => WorkoutStep.mk { s.data with intensity := some i } s.repeat_steps
  | none => s

/-- The repeat wrapper built by `_parse_line`
(`WorkoutStep(step_type=REPEAT, duration_seconds=0, ...)`). -/
def mkRepeatWrap (cnt : ℕ) (inner : WorkoutStep) : WorkoutStep :=
  mkStep { step_type := StepType.REPEAT, duration_seconds := 0, repeat_count := cnt,
           name := natChars cnt ++ ("x ".data) ++ inner.data.name } [inner]

/-- Embeds `_parse_line` after notes extraction and repeat-prefix stripping:
`line2` is the stripped line, `repeatCount` the captured count (default 1),
`notes` the captured quoted text (default empty). -/
def parseStripped (line2 : Chars) (repeatCount : ℕ) (notes : Chars) :
    Except ParseFailure WorkoutStep :=
  match findKeyword SPECIAL_KEYWORDS (lowerStr line2) with
  | some st =>
    match parseDuration line2 with
    | none => Except.error ParseFailure.noDuration
    | some dur =>
      match createSpecialStep st dur notes with
      | none => Except.error ParseFailure.badSpecial
      | some step0 =>
        if 1 < repeatCount then
          Except.ok (mkRepeatWrap repeatCount
            (setManualIntensity (findKeyword INTENSITY_KEYWORDS (lowerStr line2)) step0))
        else
          Except.ok (setManualIntensity (findKeyword INTENSITY_KEYWORDS (lowerStr line2)) step0)
  | none =>
    match parseDuration line2 with
    | none => Except.error ParseFailure.noDuration
    | some dur =>
      match buildTarget line2 dur notes with
      | none => Except.error ParseFailure.noTarget
      | some step0 =>
        if 1 < repeatCount then
          Except.ok (mkRepeatWrap repeatCount
            (setManualIntensity (findKeyword INTENSITY_KEYWORDS (lowerStr line2)) step0))
        else
          Except.ok (setManualIntensity (findKeyword INTENSITY_KEYWORDS (lowerStr line2)) step0)

/-- Embeds `WorkoutParser._parse_line`. -/
def parseLine (line : Chars) : Except ParseFailure WorkoutStep :=
  parseStripped (stripRepeat (stripNotesFromLine line).1).2
    (stripRepeat (stripNotesFromLine line).1).1 (stripNotesFromLine line).2

/-
The FIT step encoder (`FitWorkoutBuilder`).  `self.step_index` is embedded as
an explicit counter threaded through the emission functions.
-/

/-- Embeds `fit_tool` `WorkoutStepDuration` values used by the source. -/
inductive WorkoutStepDuration
  | TIME | REPEAT_UNTIL_STEPS_CMPLT
deriving DecidableEq

/-- Embeds `fit_tool` `WorkoutStepTarget` values used by the source. -/
inductive WorkoutStepTarget
  | OPEN | HEART_RATE | POWER
deriving DecidableEq

/-- The fields of a `WorkoutStepMessage` the source assigns (unassigned
message fields stay `none`). -/
structure WorkoutStepMessage where
  message_index : ℕ
  workout_step_name : Chars
  notes : Option Chars := none
  duration_type : WorkoutStepDuration
  duration_value : Option ℤ := none
  duration_step : Option ℕ := none
  target_type : WorkoutStepTarget
  target_value : ℕ
  custom_target_value_low : Option ℤ := none
  custom_target_value_high : Option ℤ := none
  intensity : Intensity
deriving DecidableEq

def FTP_SCALE : ℚ := 1
def HR_ABSOLUTE_OFFSET : ℤ := 100
def DURATION_MS_SCALE : ℚ := 1000

/-- Python `int(...)` applied to an exact rational: truncation toward zero
(numerator and denominator are coprime and the denominator is positive). -/
def pyInt (q : ℚ) : ℤ := q.num.tdiv q.den

/-- Embeds `Sport` value used (`Sport.CYCLING`). -/
inductive Sport
  | CYCLING
deriving DecidableEq

/-- The `Workout` dataclass. -/
structure Workout where
  name : Chars
  steps : List WorkoutStep
  sport : Sport := Sport.CYCLING

/-- Embeds `FitWorkoutBuilder._get_intensity`. -/
def getIntensity (d : StepData) : Intensity :=
  match d.intensity with
  | some i => i
  | none =>
    if d.step_type = StepType.OPEN then Intensity.ACTIVE
    else if d.target_type = TargetType.HEART_RATE then Intensity.ACTIVE
    else
      if d.step_type = StepType.WARMUP ∨ containsSub (lowerStr d.name) ("warmup".data) = true then
        Intensity.WARMUP
      else if d.step_type = StepType.COOLDOWN ∨ containsSub (lowerStr d.name) ("cooldown".data) = true then
        Intensity.COOLDOWN
      else if d.step_type = StepType.RECOVERY ∨ (d.power_low_pct + d.power_high_pct) / 2 < 56 then
        Intensity.RECOVERY
      else if 106 ≤ (d.power_low_pct + d.power_high_pct) / 2 then
        Intensity.INTERVAL
      else Intensity.ACTIVE

def joinSep (sep : Chars) : List Chars → Chars
  | [] => []
  | [x] => x
  | x :: y :: xs => x ++ sep ++ joinSep sep (y :: xs)

def optNatChars : Option ℕ → Chars
  | some n => natChars n
  | none => ("None".data)

/-- The notes assembled by `_create_single_step` (explicit notes, then a
cadence part, joined with " | "; `none` when both are absent). -/
def stepNotes (d : StepData) : Option Chars :=
  let parts : List Chars :=
    (if d.notes.isEmpty then [] else [d.notes]) ++
    (match d.cadence_low with
     | some cl =>
       [if d.cadence_high = some cl then
          ("Cadence: ".data) ++ natChars cl ++ (" rpm".data)
        else
          ("Cadence: ".data) ++ natChars cl ++ ("-".data) ++ optNatChars d.cadence_high ++ (" rpm".data)]
     | none => [])
  if parts.isEmpty then none else some (joinSep (" | ".data) parts)

/-- Embeds `FitWorkoutBuilder._create_single_step` at message index `idx`. -/
def createSingleStepData (idx : ℕ) (d : StepData) : WorkoutStepMessage :=
  let nm := if d.name.isEmpty then ("Step ".data) ++ natChars (idx + 1) else d.name
  let nt := stepNotes d
  let dv := pyInt (d.duration_seconds * DURATION_MS_SCALE)
  let inten := getIntensity d
  if d.target_type = TargetType.OPEN ∨ d.step_type = StepType.OPEN then
    { message_index := idx, workout_step_name := nm, notes := nt,
      duration_type := WorkoutStepDuration.TIME, duration_value := some dv,
      target_type := WorkoutStepTarget.OPEN, target_value := 0, intensity := inten }
  else if d.target_type = TargetType.HEART_RATE then
    if d.hr_is_percentage then
      { message_index := idx, workout_step_name := nm, notes := nt,
        duration_type := WorkoutStepDuration.TIME, duration_value := some dv,
        target_type := WorkoutStepTarget.HEART_RATE, target_value := 0,
        custom_target_value_low := some (pyInt d.hr_low),
        custom_target_value_high := some (pyInt d.hr_high), intensity := inten }
    else
      { message_index := idx, workout_step_name := nm, notes := nt,
        duration_type := WorkoutStepDuration.TIME, duration_value := some dv,
        target_type := WorkoutStepTarget.HEART_RATE, target_value := 0,
        custom_target_value_low := some (pyInt d.hr_low + HR_ABSOLUTE_OFFSET),
        custom_target_value_high := some (pyInt d.hr_high + HR_ABSOLUTE_OFFSET),
        intensity := inten }
  else
    { message_index := idx, workout_step_name := nm, notes := nt,
      duration_type := WorkoutStepDuration.TIME, duration_value := some dv,
      target_type := WorkoutStepTarget.POWER, target_value := 0,
      custom_target_value_low := some (pyInt (d.power_low_pct * FTP_SCALE)),
      custom_target_value_high := some (pyInt (d.power_high_pct * FTP_SCALE)),
      intensity := inten }

def createSingleStep (idx : ℕ) (s : WorkoutStep) : WorkoutStepMessage :=
  createSingleStepData idx s.data

/-- The inner-step messages of a repeat block, consuming consecutive
indices starting at `i`. -/
def innerMsgs : ℕ → List WorkoutStep → List WorkoutStepMessage
  | _, [] => []
  | i, s :: rest => createSingleStep i s :: innerMsgs (i + 1) rest

/-- The loop-marker message of `_create_repeat_steps`: points back to the
first inner step and carries the repetition count. -/
def repeatMarker (mIdx backIdx cnt : ℕ) : WorkoutStepMessage :=
  { message_index := mIdx,
    workout_step_name := ("Repeat ".data) ++ natChars cnt ++ ("x".data),
    duration_type := WorkoutStepDuration.REPEAT_UNTIL_STEPS_CMPLT,
    duration_step := some backIdx,
    target_type := WorkoutStepTarget.OPEN,
    target_value := cnt,
    intensity := Intensity.ACTIVE }

/-- Embeds `FitWorkoutBuilder._create_repeat_steps` at running index `idx`;
returns the emitted messages together with the next index. -/
def createRepeatSteps (idx : ℕ) (s : WorkoutStep) : List WorkoutStepMessage × ℕ :=
  (innerMsgs idx s.repeat_steps
     ++ [repeatMarker (idx + s.repeat_steps.length) idx s.data.repeat_count],
   idx + s.repeat_steps.length + 1)

/-- Embeds `FitWorkoutBuilder._create_workout_steps`, with the running
`self.step_index` made explicit. -/
def createWorkoutStepsAux : ℕ → List WorkoutStep → List WorkoutStepMessage × ℕ
  | idx, [] => ([], idx)
  | idx, s :: rest =>
    if s.step_type = StepType.REPEAT then
      ((createRepeatSteps idx s).1
         ++ (createWorkoutStepsAux (createRepeatSteps idx s).2 rest).1,
       (createWorkoutStepsAux (createRepeatSteps idx s).2 rest).2)
    else
      (createSingleStep idx s :: (createWorkoutStepsAux (idx + 1) rest).1,
       (createWorkoutStepsAux (idx + 1) rest).2)

def createWorkoutSteps (w : Workout) : List WorkoutStepMessage :=
  (createWorkoutStepsAux 0 w.steps).1

/-- Embeds `FitWorkoutBuilder._count_valid_steps` (the value placed in the header's
`num_valid_steps`). -/
def countValidSteps (w : Workout) : ℕ :=
  w.steps.foldl (fun acc s =>
    if s.step_type = StepType.REPEAT then acc + (1 + s.repeat_steps.length) else acc + 1) 0

/-
Result projections used by the theorems (statements about `Except` results
through decidable observations).
-/

def stepTypeOf : Except ParseFailure WorkoutStep → Option StepType
  | Except.ok s => some s.step_type
  | Except.error _ => none

def durationOf : Except ParseFailure WorkoutStep → Option ℚ
  | Except.ok s => some s.duration_seconds
  | Except.error _ => none

def powerOf : Except ParseFailure WorkoutStep → Option (ℚ × ℚ)
  | Except.ok s => some (s.data.power_low_pct, s.data.power_high_pct)
  | Except.error _ => none

def notesOf : Except ParseFailure WorkoutStep → Option Chars
  | Except.ok s => some s.data.notes
  | Except.error _ => none

/-- Whether a parse produced a `RANGE` step. -/
def isRangeResult (r : Except ParseFailure WorkoutStep) : Bool :=
  decide (stepTypeOf r = some StepType.RANGE)

/-- The invariant of claim C10 on a parse result: every produced `REPEAT`
step has exactly one inner step, the inner step is not itself a `REPEAT`,
and the wrapper's own duration is 0. -/
def okRepeatShape : Except ParseFailure WorkoutStep → Bool
  | Except.error _ => true
  | Except.ok s =>
    if s.step_type = StepType.REPEAT then
      decide (s.repeat_steps.length = 1)
        && s.repeat_steps.all (fun t => decide (t.step_type ≠ StepType.REPEAT))
        && decide (s.duration_seconds = 0)
    else true

/-
Definitions modelled from the spec's words, for comparison with the code
(refinement-style claims C3 and C6).
-/

/-- Modelled from the spec: the rounding policy the spec prescribes for power
percents, round half away from zero. -/
def roundHalfAwayFromZero (q : ℚ) : ℤ :=
  if 0 ≤ q then floorQ (q + 1/2) else -floorQ (-q + 1/2)

/-- Modelled from the spec: the intensity-resolution procedure exactly as
claim C6 states it (explicit override; Open → Active; HeartRate → Active;
Warmup/Cooldown name-or-type hints; then classification by average power
alone — the claim mentions no Recovery step-type hint). -/
def getIntensityClaimed (d : StepData) : Intensity :=
  match d.intensity with
  | some i => i
  | none =>
    if d.step_type = StepType.OPEN then Intensity.ACTIVE
    else if d.target_type = TargetType.HEART_RATE then Intensity.ACTIVE
    else
      if d.step_type = StepType.WARMUP ∨ containsSub (lowerStr d.name) ("warmup".data) = true then
        Intensity.WARMUP
      else if d.step_type = StepType.COOLDOWN ∨ containsSub (lowerStr d.name) ("cooldown".data) = true then
        Intensity.COOLDOWN
      else if (d.power_low_pct + d.power_high_pct) / 2 < 56 then
        Intensity.RECOVERY
      else if 106 ≤ (d.power_low_pct + d.power_high_pct) / 2 then
        Intensity.INTERVAL
      else Intensity.ACTIVE

/-- Modelled from the spec, claim C6 as amended: like the claim's procedure
but with the code's Recovery step-type hint restored ahead of the
average-power classification. -/
def getIntensityAmended (d : StepData) : Intensity :=
  match d.intensity with
  | some i => i
  | none =>
    if d.step_type = StepType.OPEN then Intensity.ACTIVE
    else if d.target_type = TargetType.HEART_RATE then Intensity.ACTIVE
    else
      if d.step_type = StepType.WARMUP ∨ containsSub (lowerStr d.name) ("warmup".data) = true then
        Intensity.WARMUP
      else if d.step_type = StepType.COOLDOWN ∨ containsSub (lowerStr d.name) ("cooldown".data) = true then
        Intensity.COOLDOWN
      else if d.step_type = StepType.RECOVERY then
        Intensity.RECOVERY
      else if (d.power_low_pct + d.power_high_pct) / 2 < 56 then
        Intensity.RECOVERY
      else if 106 ≤ (d.power_low_pct + d.power_high_pct) / 2 then
        Intensity.INTERVAL
      else Intensity.ACTIVE

/-
Concrete example workout of the spec's round-trip property:
steps [A, Repeat 3 [B, C], D].
-/

def exStepA : WorkoutStep := mkStep
  { step_type := StepType.STEADY, duration_seconds := 300,
    power_low_pct := 80, power_high_pct := 80, name := ("A".data) } []

def exStepB : WorkoutStep := mkStep
  { step_type := StepType.STEADY, duration_seconds := 120,
    power_low_pct := 100, power_high_pct := 100, name := ("B".data) } []

def exStepC : WorkoutStep := mkStep
  { step_type := StepType.STEADY, duration_seconds := 60,
    power_low_pct := 50, power_high_pct := 50, name := ("C".data) } []

def exStepD : WorkoutStep := mkStep
  { step_type := StepType.STEADY, duration_seconds := 300,
    power_low_pct := 75, power_high_pct := 75, name := ("D".data) } []

def exRepeatBC : WorkoutStep := mkStep
  { step_type := StepType.REPEAT, duration_seconds := 0, repeat_count := 3,
    name := ("3x B".data) } [exStepB, exStepC]

def exWorkoutC1 : Workout :=
  { name := ("Example".data), steps := [exStepA, exRepeatBC, exStepD] }

/-
Helper lemmas about the encoder's index assignment.
-/

theorem createSingleStepData_index (idx : ℕ) (d : StepData) :
    (createSingleStepData idx d).message_index = idx := by
  simp only [createSingleStepData]
  split_ifs <;> rfl

theorem innerMsgs_length (l : List WorkoutStep) : ∀ i, (innerMsgs i l).length = l.length := by
  induction l with
  | nil => intro i; rfl
  | cons s t ih => intro i; simp [innerMsgs, ih]

theorem innerMsgs_map_index (l : List WorkoutStep) :
    ∀ i, (innerMsgs i l).map WorkoutStepMessage.message_index = List.range' i l.length := by
  induction l with
  | nil => intro i; rfl
  | cons s t ih =>
    intro i
    simp [innerMsgs, List.range'_succ, ih, createSingleStep, createSingleStepData_index]

theorem createRepeatSteps_length (i : ℕ) (s : WorkoutStep) :
    (createRepeatSteps i s).1.length = s.repeat_steps.length + 1 := by
  simp [createRepeatSteps, innerMsgs_length]

theorem range'_snoc (i k : ℕ) : List.range' i k ++ [i + k] = List.range' i (k + 1) := by
  simpa [Nat.add_comm] using List.range'_append_1 i k 1

theorem createRepeatSteps_map_index (i : ℕ) (s : WorkoutStep) :
    (createRepeatSteps i s).1.map WorkoutStepMessage.message_index
      = List.range' i (s.repeat_steps.length + 1) := by
  simp only [createRepeatSteps, List.map_append, innerMsgs_map_index, List.map_cons,
    List.map_nil, repeatMarker]
  exact range'_snoc i s.repeat_steps.length

theorem createRepeatSteps_snd (i : ℕ) (s : WorkoutStep) :
    (createRepeatSteps i s).2 = i + s.repeat_steps.length + 1 := rfl

theorem createWorkoutStepsAux_spec (l : List WorkoutStep) : ∀ i,
    (createWorkoutStepsAux i l).2 = i + ((createWorkoutStepsAux i l).1).length ∧
    ((createWorkoutStepsAux i l).1).map WorkoutStepMessage.message_index
      = List.range' i ((createWorkoutStepsAux i l).1).length := by
  induction l with
  | nil => intro i; exact ⟨rfl, rfl⟩
  | cons s t ih =>
    intro i
    by_cases h : s.step_type = StepType.REPEAT
    · have hb := createRepeatSteps_length i s
      have hm := createRepeatSteps_map_index i s
      have h2 := createRepeatSteps_snd i s
      simp only [createWorkoutStepsAux, if_pos h, h2]
      obtain ⟨ih1, ih2⟩ := ih (i + s.repeat_steps.length + 1)
      constructor
      · rw [List.length_append, hb, ih1]
        omega
      · rw [List.map_append, hm, ih2, List.length_append, hb]
        have happ := List.range'_append_1 i (s.repeat_steps.length + 1)
          ((createWorkoutStepsAux (i + s.repeat_steps.length + 1) t).1).length
        rw [show i + (s.repeat_steps.length + 1) = i + s.repeat_steps.length + 1
              from by omega] at happ
        rw [happ]
        congr 1
        omega
    · obtain ⟨ih1, ih2⟩ := ih (i + 1)
      simp only [createWorkoutStepsAux, if_neg h]
      constructor
      · rw [List.length_cons, ih1]
        omega
      · rw [List.map_cons, ih2, List.length_cons, createSingleStep,
          createSingleStepData_index, List.range'_succ]

/-- C1: the encoder assigns message indices in emission order starting at 0
with no gaps, sharing one running counter across top-level and repeat-inner
records; each loop-marker record of a repeat block carries a back-reference
(`duration_step`) equal to the index of the first inner record of the block
and a repeat count (`target_value`) equal to the block's count; encoding
[A, Repeat 3 [B, C], D] yields indices [0, 1, 2, 3, 4] with the marker at
index 3 pointing back to index 1 with count 3. -/
theorem c1_message_indices :
    (∀ w : Workout, (createWorkoutSteps w).map WorkoutStepMessage.message_index
        = List.range (createWorkoutSteps w).length)
    ∧ (∀ (i : ℕ) (s : WorkoutStep), s.step_type = StepType.REPEAT →
        (createRepeatSteps i s).1
            = innerMsgs i s.repeat_steps
              ++ [repeatMarker (i + s.repeat_steps.length) i s.data.repeat_count]
          ∧ (repeatMarker (i + s.repeat_steps.length) i s.data.repeat_count).duration_step
              = some i
          ∧ (repeatMarker (i + s.repeat_steps.length) i s.data.repeat_count).target_value
              = s.data.repeat_count
          ∧ ((innerMsgs i s.repeat_steps).map WorkoutStepMessage.message_index).head?
              = s.repeat_steps.head?.map (fun _ => i))
    ∧ (createWorkoutSteps exWorkoutC1).map
          (fun m => (m.message_index, m.duration_step, m.target_value))
        = [(0, none, 0), (1, none, 0), (2, none, 0), (3, some 1, 3), (4, none, 0)] := by
  refine ⟨?_, ?_, ?_⟩
  · intro w
    have h := (createWorkoutStepsAux_spec w.steps 0).2
    rw [List.range_eq_range']
    exact h
  · intro i s _
    refine ⟨rfl, rfl, rfl, ?_⟩
    cases s.repeat_steps with
    | nil => rfl
    | cons a t =>
      simp [innerMsgs, createSingleStep, createSingleStepData_index]
  · decide

/-- C1 witness: the per-block facts instantiated at the concrete repeat block
of [A, Repeat 3 [B, C], D], sitting at running index 1. -/
theorem c1_message_indices_witness :
    exRepeatBC.step_type = StepType.REPEAT
    ∧ ((createRepeatSteps 1 exRepeatBC).1
          = innerMsgs 1 exRepeatBC.repeat_steps
            ++ [repeatMarker (1 + exRepeatBC.repeat_steps.length) 1 exRepeatBC.data.repeat_count]
        ∧ (repeatMarker (1 + exRepeatBC.repeat_steps.length) 1
            exRepeatBC.data.repeat_count).duration_step = some 1
        ∧ (repeatMarker (1 + exRepeatBC.repeat_steps.length) 1
            exRepeatBC.data.repeat_count).target_value = exRepeatBC.data.repeat_count
        ∧ ((innerMsgs 1 exRepeatBC.repeat_steps).map WorkoutStepMessage.message_index).head?
            = exRepeatBC.repeat_steps.head?.map (fun _ => 1)) :=
  ⟨by decide, c1_message_indices.2.1 1 exRepeatBC (by decide)⟩

/-- The foldl of `_count_valid_steps` as a sum over steps. -/
theorem countValidSteps_foldl (l : List WorkoutStep) : ∀ a : ℕ,
    l.foldl (fun acc s =>
        if s.step_type = StepType.REPEAT then acc + (1 + s.repeat_steps.length) else acc + 1) a
      = a + (l.map (fun s =>
          if s.step_type = StepType.REPEAT then 1 + s.repeat_steps.length else 1)).sum := by
  induction l with
  | nil => intro a; simp
  | cons s t ih =>
    intro a
    by_cases h : s.step_type = StepType.REPEAT <;>
      simp [h, ih, Nat.add_assoc]

/-- Length of the emitted message list. -/
theorem createWorkoutStepsAux_length (l : List WorkoutStep) : ∀ i,
    ((createWorkoutStepsAux i l).1).length
      = (l.map (fun s =>
          if s.step_type = StepType.REPEAT then 1 + s.repeat_steps.length else 1)).sum := by
  induction l with
  | nil => intro i; rfl
  | cons s t ih =>
    intro i
    by_cases h : s.step_type = StepType.REPEAT
    · simp only [createWorkoutStepsAux, if_pos h, List.length_append,
        createRepeatSteps_length, ih, List.map_cons, List.sum_cons]
      omega
    · simp only [createWorkoutStepsAux, if_neg h, List.length_cons, ih,
        List.map_cons, List.sum_cons]
      omega

/-- C5: the header's total step count is the sum over top-level steps of 1
for a non-repeat step and 1 + length(inner_steps) for a repeat block (inner
steps counted once, not once per repetition); it equals the number of
emitted step records, and is 5 (not 7) for [A, Repeat 3 [B, C], D]. -/
theorem c5_step_count :
    (∀ w : Workout, countValidSteps w
        = (w.steps.map (fun s =>
            if s.step_type = StepType.REPEAT then 1 + s.repeat_steps.length else 1)).sum)
    ∧ (∀ w : Workout, countValidSteps w = (createWorkoutSteps w).length)
    ∧ countValidSteps exWorkoutC1 = 5 := by
  refine ⟨?_, ?_, ?_⟩
  · intro w
    simpa using countValidSteps_foldl w.steps 0
  · intro w
    rw [createWorkoutSteps, createWorkoutStepsAux_length w.steps 0]
    simpa using countValidSteps_foldl w.steps 0
  · decide

/-- Python `int()` of a whole number is that number. -/
theorem pyInt_natCast (n : ℕ) : pyInt ((n : ℕ) : ℚ) = n := by
  unfold pyInt
  rw [Rat.num_natCast, Rat.den_natCast]
  simp

def exDataC3 : StepData :=
  { step_type := StepType.STEADY, duration_seconds := 300, target_type := TargetType.POWER,
    power_low_pct := 906/10, power_high_pct := 906/10 }

/-- C3 counterexample: the line `5min 90.6% FTP` parses to power 90.6, and the
encoder stores 90 for that step, while the claim's rounding policy
(half away from zero) would give 91 — the code truncates toward zero. -/
theorem c3_counterexample :
    powerOf (parseLine (("5min 90.6% FTP").data)) = some (906/10, 906/10)
    ∧ (createSingleStepData 0 exDataC3).custom_target_value_low = some 90
    ∧ roundHalfAwayFromZero (906/10) = 91 := by
  decide

/-- C3 (amended): for every power-target step the encoder stores the low and
high bounds as the percent values truncated toward zero by Python `int()`
(so 90.6 encodes as 90, not 91). -/
theorem c3_power_truncation (idx : ℕ) (d : StepData)
    (hp : d.target_type = TargetType.POWER) (ho : d.step_type ≠ StepType.OPEN) :
    (createSingleStepData idx d).custom_target_value_low
        = some (pyInt (d.power_low_pct * FTP_SCALE))
    ∧ (createSingleStepData idx d).custom_target_value_high
        = some (pyInt (d.power_high_pct * FTP_SCALE)) := by
  have h1 : ¬(d.target_type = TargetType.OPEN ∨ d.step_type = StepType.OPEN) := by
    rintro (hx | hx)
    · rw [hp] at hx; exact absurd hx (by decide)
    · exact ho hx
  have h2 : ¬ d.target_type = TargetType.HEART_RATE := by
    rw [hp]; decide
  simp only [createSingleStepData, if_neg h1, if_neg h2]
  exact ⟨trivial, trivial⟩

/-- C3 witness: the truncation theorem applied at the 90.6 example. -/
theorem c3_power_truncation_witness :
    exDataC3.target_type = TargetType.POWER
    ∧ (createSingleStepData 0 exDataC3).custom_target_value_low
        = some (pyInt (exDataC3.power_low_pct * FTP_SCALE))
    ∧ pyInt (exDataC3.power_low_pct * FTP_SCALE) = 90 :=
  ⟨by decide, (c3_power_truncation 0 exDataC3 (by decide) (by decide)).1, by decide⟩

/-- C4: for a heart-rate-target step with whole-number bounds, absolute bpm
bounds are stored as bpm + 100 and percentage-of-max bounds as the plain
integer percent. -/
theorem c4_hr_encoding (idx : ℕ) (d : StepData) (bl bh : ℕ)
    (ht : d.target_type = TargetType.HEART_RATE) (ho : d.step_type ≠ StepType.OPEN)
    (hl : d.hr_low = ((bl : ℕ) : ℚ)) (hh : d.hr_high = ((bh : ℕ) : ℚ)) :
    (d.hr_is_percentage = false →
        (createSingleStepData idx d).custom_target_value_low = some ((bl : ℤ) + 100)
        ∧ (createSingleStepData idx d).custom_target_value_high = some ((bh : ℤ) + 100))
    ∧ (d.hr_is_percentage = true →
        (createSingleStepData idx d).custom_target_value_low = some ((bl : ℤ))
        ∧ (createSingleStepData idx d).custom_target_value_high = some ((bh : ℤ))) := by
  have h1 : ¬(d.target_type = TargetType.OPEN ∨ d.step_type = StepType.OPEN) := by
    rintro (hx | hx)
    · rw [ht] at hx; exact absurd hx (by decide)
    · exact ho hx
  constructor
  · intro hpct
    simp [createSingleStepData, h1, ho, ht, hpct, hl, hh, pyInt_natCast, HR_ABSOLUTE_OFFSET]
  · intro hpct
    simp [createSingleStepData, h1, ho, ht, hpct, hl, hh, pyInt_natCast]

def exDataC4abs : StepData :=
  { step_type := StepType.STEADY, duration_seconds := 600,
    target_type := TargetType.HEART_RATE, hr_target_type := some TargetType.HEART_RATE,
    hr_low := 140, hr_high := 140, hr_is_percentage := false }

def exDataC4pct : StepData :=
  { step_type := StepType.STEADY, duration_seconds := 600,
    target_type := TargetType.HEART_RATE, hr_target_type := some TargetType.HEART_RATE,
    hr_low := 80, hr_high := 80, hr_is_percentage := true }

/-- C4 witness: 140 bpm stores as 240 = 140 + 100; 80 %HR stores as 80. -/
theorem c4_hr_encoding_witness :
    ((createSingleStepData 0 exDataC4abs).custom_target_value_low
        = some (((140 : ℕ) : ℤ) + 100)
      ∧ (createSingleStepData 0 exDataC4abs).custom_target_value_high
        = some (((140 : ℕ) : ℤ) + 100))
    ∧ ((createSingleStepData 0 exDataC4pct).custom_target_value_low = some ((80 : ℕ) : ℤ)
      ∧ (createSingleStepData 0 exDataC4pct).custom_target_value_high = some ((80 : ℕ) : ℤ))
    ∧ ((140 : ℕ) : ℤ) + 100 = 240 :=
  ⟨(c4_hr_encoding 0 exDataC4abs 140 140 (by decide) (by decide) (by decide) (by decide)).1 rfl,
   (c4_hr_encoding 0 exDataC4pct 80 80 (by decide) (by decide) (by decide) (by decide)).2 rfl,
   by decide⟩

def exDataC6 : StepData :=
  { step_type := StepType.RECOVERY, duration_seconds := 180,
    target_type := TargetType.POWER, power_low_pct := 75, power_high_pct := 75 }

/-- C6 counterexample: a Recovery-typed power step with no explicit override
and average power 75 gets intensity Recovery from the code, while the
claim's procedure (which has no Recovery type hint) yields Active. -/
theorem c6_counterexample :
    getIntensity exDataC6 = Intensity.RECOVERY
    ∧ getIntensityClaimed exDataC6 = Intensity.ACTIVE := by
  decide

/-- C6 (amended): intensity resolution follows the claimed priority order —
explicit override, Open → Active, HeartRate → Active, Warmup/Cooldown name
or type hints, then classification by average power (< 56 Recovery,
≥ 106 Interval, otherwise Active) — with one addition: a Recovery-typed
step is Recovery before the average-power classification. -/
theorem c6_intensity_resolution (d : StepData) :
    getIntensity d = getIntensityAmended d := by
  unfold getIntensity getIntensityAmended
  cases d.intensity with
  | some i => rfl
  | none =>
    split_ifs <;> first | rfl | tauto

/-
Claim C7: duration tokens.
-/

theorem optionAlt_eq_some {α : Type} (a b : Option α) (x : α)
    (h : (a <|> b) = some x) : a = some x ∨ b = some x := by
  cases a with
  | none => right; simpa using h
  | some y => left; simpa using h

/-- A successful search means the matcher succeeded on some suffix. -/
theorem search_eq_some {α : Type} (m : Chars → Option (α × Chars)) :
    ∀ (l : Chars) (a : α), search m l = some a → ∃ t r, m t = some (a, r) := by
  intro l
  induction l with
  | nil =>
    intro a h
    simp only [search] at h
    cases hm : m [] with
    | none => rw [hm] at h; simp at h
    | some p =>
      rw [hm] at h
      simp only [Option.map_some', Option.some.injEq] at h
      exact ⟨[], p.2, by rw [hm, ← h]⟩
  | cons c r ih =>
    intro a h
    simp only [search] at h
    cases hm : m (c :: r) with
    | some p =>
      rw [hm] at h
      simp only [Option.some.injEq] at h
      exact ⟨c :: r, p.2, by rw [hm, ← h]⟩
    | none =>
      rw [hm] at h
      exact ih a h

theorem matchAlt_capture (lit l : Chars) (u r : Chars)
    (h : matchAlt lit l = some (u, r)) : u = lit := by
  unfold matchAlt at h
  cases hm : matchLit lit l with
  | none => rw [hm] at h; simp at h
  | some x => rw [hm] at h; simp only [Option.map_some', Option.some.injEq] at h
              exact (Prod.mk.injEq .. ▸ h).1.symm

theorem matchOptS_capture (lit l : Chars) (u r : Chars)
    (h : matchOptS lit l = some (u, r)) : u = lit ∨ u = lit ++ ['s'] := by
  unfold matchOptS at h
  split at h
  · exact absurd h (by simp)
  · split at h
    · split at h
      · simp only [Option.some.injEq, Prod.mk.injEq] at h
        exact Or.inr h.1.symm
      · simp only [Option.some.injEq, Prod.mk.injEq] at h
        exact Or.inl h.1.symm
    · simp only [Option.some.injEq, Prod.mk.injEq] at h
      exact Or.inl h.1.symm

/-- Every capture of the unit group lies in one of the three unit classes. -/
theorem matchUnit_mem (l u r : Chars) (h : matchUnit l = some (u, r)) :
    u ∈ secUnits ∨ u ∈ minUnits ∨ u ∈ hourUnits := by
  unfold matchUnit at h
  rcases optionAlt_eq_some _ _ _ h with h | h
  · rw [matchAlt_capture _ _ _ _ h]; decide
  rcases optionAlt_eq_some _ _ _ h with h | h
  · rw [matchAlt_capture _ _ _ _ h]; decide
  rcases optionAlt_eq_some _ _ _ h with h | h
  · rcases matchOptS_capture _ _ _ _ h with h' | h' <;> rw [h'] <;> decide
  rcases optionAlt_eq_some _ _ _ h with h | h
  · rw [matchAlt_capture _ _ _ _ h]; decide
  rcases optionAlt_eq_some _ _ _ h with h | h
  · rw [matchAlt_capture _ _ _ _ h]; decide
  rcases optionAlt_eq_some _ _ _ h with h | h
  · rcases matchOptS_capture _ _ _ _ h with h' | h' <;> rw [h'] <;> decide
  rcases optionAlt_eq_some _ _ _ h with h | h
  · rw [matchAlt_capture _ _ _ _ h]; decide
  rcases optionAlt_eq_some _ _ _ h with h | h
  · rw [matchAlt_capture _ _ _ _ h]; decide
  · rcases matchOptS_capture _ _ _ _ h with h' | h' <;> rw [h'] <;> decide

/-- The unit captured by a duration match comes from the unit group. -/
theorem matchDurationAt_unit (l : Chars) (v : ℚ) (u r : Chars)
    (h : matchDurationAt l = some ((v, u), r)) :
    ∃ l' r', matchUnit l' = some (u, r') := by
  unfold matchDurationAt at h
  cases hm : matchNumber l with
  | none => rw [hm] at h; simp at h
  | some p =>
    rw [hm] at h
    cases hu : matchUnit (skipSpaces p.2) with
    | none => simp [hu] at h
    | some q =>
      simp only [hu, Option.bind_eq_bind, Option.bind_some, Option.some.injEq] at h
      refine ⟨skipSpaces p.2, q.2, ?_⟩
      rw [hu]
      cases q
      cases p
      simp_all

theorem mem_minUnits_not_secUnits (u : Chars) (h : u ∈ minUnits) : u ∉ secUnits := by
  simp only [minUnits, List.mem_cons, List.not_mem_nil, or_false] at h
  rcases h with rfl | rfl | rfl | rfl <;> decide

theorem mem_hourUnits_not_secUnits (u : Chars) (h : u ∈ hourUnits) : u ∉ secUnits := by
  simp only [hourUnits, List.mem_cons, List.not_mem_nil, or_false] at h
  rcases h with rfl | rfl | rfl | rfl <;> decide

theorem mem_hourUnits_not_minUnits (u : Chars) (h : u ∈ hourUnits) : u ∉ minUnits := by
  simp only [hourUnits, List.mem_cons, List.not_mem_nil, or_false] at h
  rcases h with rfl | rfl | rfl | rfl <;> decide

/-- C7: for a line whose first (leftmost) duration match captures value `v`
and unit `u`, the unit belongs to the seconds/minutes/hours classes
(case-insensitively, with or without whitespace before the unit, by
construction of the matcher), and the parsed duration is `v`, `v*60`, or
`v*3600` according to the class; only this first match is used. -/
theorem c7_duration_units (line : Chars) (v : ℚ) (u : Chars)
    (h : searchDuration line = some (v, u)) :
    (u ∈ secUnits ∨ u ∈ minUnits ∨ u ∈ hourUnits)
    ∧ (u ∈ secUnits → parseDuration line = some v)
    ∧ (u ∈ minUnits → parseDuration line = some (v * 60))
    ∧ (u ∈ hourUnits → parseDuration line = some (v * 3600)) := by
  have hmem : u ∈ secUnits ∨ u ∈ minUnits ∨ u ∈ hourUnits := by
    obtain ⟨t, r, ht⟩ := search_eq_some matchDurationAt line (v, u) h
    obtain ⟨l', r', hu⟩ := matchDurationAt_unit t v u r ht
    exact matchUnit_mem l' u r' hu
  have heval : parseDuration line =
      (if u ∈ secUnits then some v
       else if u ∈ minUnits then some (v * 60)
       else if u ∈ hourUnits then some (v * 3600) else none) := by
    simp only [parseDuration, h]
  refine ⟨hmem, ?_, ?_, ?_⟩
  · intro hs; rw [heval, if_pos hs]
  · intro hm
    rw [heval, if_neg (mem_minUnits_not_secUnits u hm), if_pos hm]
  · intro hh
    rw [heval, if_neg (mem_hourUnits_not_secUnits u hh),
      if_neg (mem_hourUnits_not_minUnits u hh), if_pos hh]

/-- C7 witness: `10MIN` → 600 s, `2 h` → 7200 s, `45Seconds` → 45 s. -/
theorem c7_duration_units_witness :
    searchDuration (("10MIN 95% FTP").data) = some (10, ("m".data))
    ∧ parseDuration (("10MIN 95% FTP").data) = some (10 * 60)
    ∧ searchDuration (("2 h").data) = some (2, ("h".data))
    ∧ parseDuration (("2 h").data) = some (2 * 3600)
    ∧ searchDuration (("45Seconds easy").data) = some (45, ("s".data))
    ∧ parseDuration (("45Seconds easy").data) = some 45 :=
  ⟨by decide,
   (c7_duration_units (("10MIN 95% FTP").data) 10 ("m".data) (by decide)).2.2.1 (by decide),
   by decide,
   (c7_duration_units (("2 h").data) 2 ("h".data) (by decide)).2.2.2 (by decide),
   by decide,
   (c7_duration_units (("45Seconds easy").data) 45 ("s".data) (by decide)).2.1 (by decide)⟩

/-
Claim C8: quoted notes are removed before any other matching.
-/

def exLineC8 : Chars := ("\"100% FTP note\" 5min 80% FTP").data

/-- C8: when a line contains a quoted substring, the first quoted run is
removed before repeat-prefix, duration and target matching (the rest of the
parse runs on `before ++ after` with the quoted content as the notes); in
particular `"100% FTP note" 5min 80% FTP` parses to 300 s steady power 80,
with the quoted text as the step's notes. -/
theorem c8_notes_stripped :
    (∀ (line b n a : Chars), extractNotes line = some (b, n, a) →
        parseLine line
          = parseStripped (stripRepeat (b ++ a)).2 (stripRepeat (b ++ a)).1 n)
    ∧ durationOf (parseLine exLineC8) = some 300
    ∧ stepTypeOf (parseLine exLineC8) = some StepType.STEADY
    ∧ powerOf (parseLine exLineC8) = some (80, 80)
    ∧ notesOf (parseLine exLineC8) = some (("100% FTP note").data) := by
  refine ⟨?_, by decide, by decide, by decide, by decide⟩
  intro line b n a h
  simp only [parseLine, stripNotesFromLine, h]

/-- C8 witness: the factorization applied at the concrete example line. -/
theorem c8_notes_stripped_witness :
    extractNotes exLineC8 = some ([], ("100% FTP note").data, (" 5min 80% FTP").data)
    ∧ parseLine exLineC8
        = parseStripped (stripRepeat ([] ++ (" 5min 80% FTP").data)).2
            (stripRepeat ([] ++ (" 5min 80% FTP").data)).1 (("100% FTP note").data) :=
  ⟨by decide,
   c8_notes_stripped.1 exLineC8 [] (("100% FTP note").data) ((" 5min 80% FTP").data)
     (by decide)⟩

/-
Claim C9: a line with a duration but no power or heart-rate target fails.
-/

/-- C9: a non-special-keyword line containing a valid duration but matching
none of the power patterns and neither heart-rate pattern parses to the
"no power or HR target" failure and produces no step. -/
theorem c9_no_target_error (line l1 n : Chars) (cnt : ℕ) (l2 : Chars)
    (h1 : stripNotesFromLine line = (l1, n))
    (h2 : stripRepeat l1 = (cnt, l2))
    (h3 : findKeyword SPECIAL_KEYWORDS (lowerStr l2) = none)
    (h4 : (parseDuration l2).isSome = true)
    (h5 : searchRamp l2 = none) (h6 : searchRange l2 = none)
    (h7 : searchSteady l2 = none) (h8 : searchHrPct l2 = none)
    (h9 : searchHrAbs l2 = none) :
    parseLine line = Except.error ParseFailure.noTarget := by
  obtain ⟨d, hd⟩ := Option.isSome_iff_exists.mp h4
  have hb : buildTarget l2 d n = none := by
    simp only [buildTarget, h5, h6, h7, parseHr, h8, h9]
  simp only [parseLine, h1, h2, parseStripped, h3, hd, hb]

def exLineC9 : Chars := ("5min @90rpm").data

/-- C9 witness: the cadence-only line `5min @90rpm` fails with the
no-target parse error. -/
theorem c9_no_target_error_witness :
    parseLine exLineC9 = Except.error ParseFailure.noTarget :=
  c9_no_target_error exLineC9 exLineC9 [] 1 exLineC9 (by decide) (by decide) (by decide)
    (by decide) (by decide) (by decide) (by decide) (by decide) (by decide)

/-
Structural lemmas about step construction, for claims C10 and C2.
-/

theorem applyPostInit_step_type (d : StepData) : (applyPostInit d).step_type = d.step_type := by
  simp only [applyPostInit]
  split_ifs <;> rfl

theorem applyPostInit_duration (d : StepData) :
    (applyPostInit d).duration_seconds = d.duration_seconds := by
  simp only [applyPostInit]
  split_ifs <;> rfl

theorem mkStep_step_type (d : StepData) (rs : List WorkoutStep) :
    (mkStep d rs).step_type = d.step_type := by
  simp only [mkStep, WorkoutStep.step_type, WorkoutStep.data, applyPostInit_step_type]

theorem mkStep_duration (d : StepData) (rs : List WorkoutStep) :
    (mkStep d rs).duration_seconds = d.duration_seconds := by
  simp only [mkStep, WorkoutStep.duration_seconds, WorkoutStep.data, applyPostInit_duration]

theorem mkStep_repeat_steps (d : StepData) (rs : List WorkoutStep) :
    (mkStep d rs).repeat_steps = rs := rfl

theorem setManualIntensity_step_type (m : Option Intensity) (s : WorkoutStep) :
    (setManualIntensity m s).step_type = s.step_type := by
  cases m <;> rfl

/-- Steps built by `_create_special_step` are ramps, steadies or open steps. -/
theorem createSpecialStep_shape (st : StepType) (dur : ℚ) (notes : Chars) (t : WorkoutStep)
    (h : createSpecialStep st dur notes = some t) :
    t.step_type = StepType.RAMP ∨ t.step_type = StepType.STEADY
      ∨ t.step_type = StepType.OPEN := by
  cases st <;> simp only [createSpecialStep] at h <;>
    first
      | (rw [← Option.some.inj h, mkStep_step_type]; simp)
      | exact Option.noConfusion h

/-- Steps built by the target-selection part of `_parse_line` are ramps,
steadies, or ranges — and a range is only built when the ramp pattern did
not match anywhere but the range pattern did. -/
theorem buildTarget_shape (l2 : Chars) (dur : ℚ) (notes : Chars) (t : WorkoutStep)
    (h : buildTarget l2 dur notes = some t) :
    t.step_type = StepType.RAMP ∨ t.step_type = StepType.STEADY
    ∨ (t.step_type = StepType.RANGE ∧ searchRamp l2 = none ∧ searchRange l2 ≠ none) := by
  unfold buildTarget at h
  split at h
  · rw [← Option.some.inj h, mkStep_step_type]
    left; rfl
  · rename_i heqRamp
    split at h
    · rename_i lo hi heqRange
      rw [← Option.some.inj h, mkStep_step_type]
      refine Or.inr (Or.inr ⟨rfl, heqRamp, ?_⟩)
      rw [heqRange]
      simp
    · split at h
      · rw [← Option.some.inj h, mkStep_step_type]
        right; left; rfl
      · split at h
        · rw [← Option.some.inj h, mkStep_step_type]
          right; left; rfl
        · exact absurd h (by simp)

theorem okRepeatShape_ok_nonrepeat (s : WorkoutStep) (h : s.step_type ≠ StepType.REPEAT) :
    okRepeatShape (Except.ok s) = true := by
  simp only [okRepeatShape]
  rw [if_neg h]

theorem okRepeatShape_wrap (cnt : ℕ) (t : WorkoutStep) (h : t.step_type ≠ StepType.REPEAT) :
    okRepeatShape (Except.ok (mkRepeatWrap cnt t)) = true := by
  simp only [okRepeatShape, mkRepeatWrap]
  rw [if_pos (by rw [mkStep_step_type])]
  simp [mkStep_repeat_steps, mkStep_duration, h]

/-- Every `REPEAT` step produced by the line parser wraps exactly one inner
step, that inner step is itself not a `REPEAT`, and the wrapper's duration
is 0 — for any stripped line, repeat count and notes. -/
theorem parseStripped_repeat_shape (l2 : Chars) (cnt : ℕ) (nts : Chars) :
    okRepeatShape (parseStripped l2 cnt nts) = true := by
  unfold parseStripped
  split
  · rename_i st heqSp
    split
    · rfl
    · rename_i dur heqDur
      split
      · rfl
      · rename_i step0 heqSpec
        have hshape := createSpecialStep_shape st dur nts step0 heqSpec
        have hst : (setManualIntensity (findKeyword INTENSITY_KEYWORDS (lowerStr l2))
            step0).step_type ≠ StepType.REPEAT := by
          rw [setManualIntensity_step_type]
          rcases hshape with hx | hx | hx <;> rw [hx] <;> decide
        split
        · exact okRepeatShape_wrap _ _ hst
        · exact okRepeatShape_ok_nonrepeat _ hst
  · split
    · rfl
    · rename_i dur heqDur
      split
      · rfl
      · rename_i step0 heqBT
        have hshape := buildTarget_shape l2 dur nts step0 heqBT
        have hst : (setManualIntensity (findKeyword INTENSITY_KEYWORDS (lowerStr l2))
            step0).step_type ≠ StepType.REPEAT := by
          rw [setManualIntensity_step_type]
          rcases hshape with hx | hx | ⟨hx, _, _⟩ <;> rw [hx] <;> decide
        split
        · exact okRepeatShape_wrap _ _ hst
        · exact okRepeatShape_ok_nonrepeat _ hst

/-- C10: every `REPEAT` step the line parser produces contains exactly one
inner step, that inner step is never itself a `REPEAT` (so nesting is
impossible by construction), and the wrapper's own duration field is 0. -/
theorem c10_repeat_shape (line : Chars) : okRepeatShape (parseLine line) = true := by
  simp only [parseLine]
  exact parseStripped_repeat_shape _ _ _

/-
Claim C2: the RANGE branch of `_parse_line` is unreachable, because
`POWER_RAMP_PATTERN` (checked first) matches every text the range pattern
matches — its `%` after the first bound is optional.
-/

theorem dropWhile_dropWhile (p : Char → Bool) (l : Chars) :
    (l.dropWhile p).dropWhile p = l.dropWhile p := by
  induction l with
  | nil => rfl
  | cons c t ih =>
    by_cases h : p c
    · simp [List.dropWhile_cons, h, ih]
    · simp [List.dropWhile_cons, h]

theorem skipSpaces_skipSpaces (l : Chars) : skipSpaces (skipSpaces l) = skipSpaces l :=
  dropWhile_dropWhile pyIsSpace l

theorem isDash_toLower_ne (c : Char) (h : isDash c = true) : ¬ c.toLower = '%' := by
  simp only [isDash, Bool.or_eq_true, decide_eq_true_eq] at h
  rcases h with (rfl | rfl) | rfl <;> decide

/-- Any match of the range pattern at a position is also a match of the ramp
pattern there, with the same captures. -/
theorem matchRangeAt_imp (l : Chars) (x : (ℚ × ℚ) × Chars)
    (h : matchRangeAt l = some x) : matchRampAt l = some x := by
  unfold matchRangeAt at h
  unfold matchRampAt
  cases hn : matchNumber l with
  | none => rw [hn] at h; simp at h
  | some p =>
    obtain ⟨v1, r1⟩ := p
    rw [hn] at h
    simp only [Option.bind_eq_bind, Option.some_bind] at h ⊢
    have hd : ∃ rr, matchDashes1 (skipSpaces r1) = some rr := by
      unfold matchPowerTail at h
      cases hdd : matchDashes1 (skipSpaces r1) with
      | none => rw [hdd] at h; simp at h
      | some rr => exact ⟨rr, rfl⟩
    obtain ⟨rr, hdd⟩ := hd
    have hpc : matchChar '%' (skipSpaces r1) = none := by
      cases hsp : skipSpaces r1 with
      | nil => rw [hsp] at hdd; exact absurd hdd (by simp [matchDashes1])
      | cons c rest =>
        rw [hsp] at hdd
        have hc : isDash c = true := by
          by_contra hc
          simp only [matchDashes1] at hdd
          rw [if_neg hc] at hdd
          exact Option.noConfusion hdd
        simp only [matchChar]
        rw [if_neg (isDash_toLower_ne c hc)]
    simp only [hpc, skipSpaces_skipSpaces]
    exact h

/-- If the range pattern matches somewhere on a line, so does the ramp
pattern (searched first by `_parse_line`). -/
theorem searchRamp_isSome_of_range : ∀ (l : Chars) (q : ℚ × ℚ),
    searchRange l = some q → ∃ q', searchRamp l = some q' := by
  intro l
  induction l with
  | nil =>
    intro q h
    rw [show searchRange ([] : Chars) = none from rfl] at h
    exact absurd h (by simp)
  | cons c r ih =>
    intro q h
    cases hm : matchRangeAt (c :: r) with
    | some p =>
      have hr := matchRangeAt_imp (c :: r) p hm
      exact ⟨p.1, by unfold searchRamp search; rw [hr]⟩
    | none =>
      have h' : searchRange r = some q := by
        unfold searchRange search at h
        simpa only [hm] using h
      obtain ⟨q', hq'⟩ := ih q h'
      cases hm2 : matchRampAt (c :: r) with
      | some p2 => exact ⟨p2.1, by unfold searchRamp search; rw [hm2]⟩
      | none =>
        refine ⟨q', ?_⟩
        unfold searchRamp search
        rw [hm2]
        exact hq'

theorem isRangeResult_ok (s : WorkoutStep) (h : s.step_type ≠ StepType.RANGE) :
    isRangeResult (Except.ok s) = false := by
  simp [isRangeResult, stepTypeOf, h]

/-- No parse of a stripped line can produce a `RANGE` step: the RANGE branch
requires the ramp search to fail while the range search succeeds, which is
impossible. -/
theorem parseStripped_not_range (l2 : Chars) (cnt : ℕ) (nts : Chars) :
    isRangeResult (parseStripped l2 cnt nts) = false := by
  unfold parseStripped
  split
  · rename_i st heqSp
    split
    · rfl
    · rename_i dur heqDur
      split
      · rfl
      · rename_i step0 heqSpec
        have hshape := createSpecialStep_shape st dur nts step0 heqSpec
        have hst : (setManualIntensity (findKeyword INTENSITY_KEYWORDS (lowerStr l2))
            step0).step_type ≠ StepType.RANGE := by
          rw [setManualIntensity_step_type]
          rcases hshape with hx | hx | hx <;> rw [hx] <;> decide
        split
        · exact isRangeResult_ok _
            (by rw [mkRepeatWrap, mkStep_step_type]
                exact fun hcon => StepType.noConfusion hcon)
        · exact isRangeResult_ok _ hst
  · split
    · rfl
    · rename_i dur heqDur
      split
      · rfl
      · rename_i step0 heqBT
        have hshape := buildTarget_shape l2 dur nts step0 heqBT
        have hst : (setManualIntensity (findKeyword INTENSITY_KEYWORDS (lowerStr l2))
            step0).step_type ≠ StepType.RANGE := by
          rw [setManualIntensity_step_type]
          rcases hshape with hx | hx | ⟨hx, hramp, hrange⟩
          · rw [hx]; decide
          · rw [hx]; decide
          · obtain ⟨qq, hqq⟩ := Option.ne_none_iff_exists'.mp hrange
            obtain ⟨q', hq'⟩ := searchRamp_isSome_of_range l2 qq hqq
            rw [hramp] at hq'
            exact absurd hq' (by simp)
        split
        · exact isRangeResult_ok _
            (by rw [mkRepeatWrap, mkStep_step_type]
                exact fun hcon => StepType.noConfusion hcon)
        · exact isRangeResult_ok _ hst

/-- C2: the claim's default — a two-number FTP target with no progression
wording becomes a `Range` — is violated: `5min 85-95% FTP` parses to a
`RAMP` step (the ramp pattern's optional `%` matches it and is checked
first), and no line at all can produce a `RANGE` step, although a
one-number FTP match does build a Steady step as the claim says. -/
theorem c2_range_never_built :
    stepTypeOf (parseLine (("5min 85-95% FTP").data)) = some StepType.RAMP
    ∧ stepTypeOf (parseLine (("5min 80% FTP").data)) = some StepType.STEADY
    ∧ (∀ line : Chars, isRangeResult (parseLine line) = false) := by
  refine ⟨by decide, by decide, ?_⟩
  intro line
  simp only [parseLine]
  exact parseStripped_not_range _ _ _
